import Mathlib

/-!
Verification of the picom Vulkan backend (the backend/vulkan translation
unit of src/src/inspect.c). The definitions below are a shallow embedding
of the C source: commands recorded into the shared Vulkan command buffer
are modelled as a list of `VkCmd` values, host-side synchronization calls
as a list of `HostAction` values, and the fields of `struct vulkan_data`
and `struct vulkan_image` that the verified claims touch are carried in
explicit state records. Machine integers are modelled as `Nat`/`Int`,
with explicit wrapping modulo 2^64 where the C code performs size_t
arithmetic that can wrap.
-/

namespace PicomVulkan

/-- A pixman_box32_t rectangle: corners (x1, y1) and (x2, y2). -/
structure Box where
  x1 : Int
  y1 : Int
  x2 : Int
  y2 : Int
deriving DecidableEq

/-- The subset of VkImageLayout values the backend uses. -/
inductive Layout
  | undefined
  | colorAttachment
  | presentSrc
  | shaderRead
  | transferDst
deriving DecidableEq

/-- The two graphics pipelines of the backend. -/
inductive PipelineKind
  | compose
  | fill
deriving DecidableEq

/-- Shader stages targeted by vkCmdPushConstants. -/
inductive Stage
  | vertex
  | fragment
deriving DecidableEq

/-- Payload of a vkCmdPushConstants call. The fill color is a vector of
four floats in the source; its numeric value is irrelevant to every claim,
so it is carried as an opaque tag. -/
inductive PushPayload
  | outputSize (w h : Nat)
  | imageOffset (x y : Int)
  | rect (r : Box)
  | fillColor
deriving DecidableEq

/-- Commands recorded into the shared command buffer. -/
inductive VkCmd
  | imageBarrier (oldLayout newLayout : Layout)
  | copyBufferToImage (x y : Int) (w h : Nat)
  | beginRendering (area : Box)
  | bindPipeline (p : PipelineKind)
  | setScissor (area : Box)
  | bindDescriptorSets
  | pushConstants (stage : Stage) (offset size : Nat) (payload : PushPayload)
  | draw (vertexCount instanceCount firstVertex firstInstance : Nat)
  | endRendering
deriving DecidableEq

/-- The two fences of `struct vulkan_data`. -/
inductive FenceId
  | acquireNextImage
  | queueSubmit
deriving DecidableEq

/-- Host-side Vulkan calls made by the frame sequencer. -/
inductive HostAction
  | waitFences (f : FenceId)
  | resetFences (f : FenceId)
  | resetCommandBuffer
  | beginCommandBuffer
  | endCommandBuffer
  | queueSubmit (signalFence : FenceId)
  | queuePresent
  | acquireNextImage
deriving DecidableEq

/-- enum bind_pixmap_strategy. -/
inductive BindPixmapStrategy
  | dri3
  | shm
deriving DecidableEq

/-- The fields of `struct vulkan_data` that the frame sequencer reads and
writes. `command_buffer` holds the commands currently recorded into the
single shared command buffer. -/
structure VulkanData where
  bind_pixmap_strategy : BindPixmapStrategy
  width : Nat
  height : Nat
  swapchain_image_count : Nat
  swapchain_image_layouts : List Layout
  buffer_ages : List Int
  swapchain_image_index : Nat
  command_buffer : List VkCmd
deriving DecidableEq

/-- The buffer-age array created by vk_create_swapchain: the loop sets
`vd->buffer_ages[i] = -1` for every swapchain image. -/
def vk_create_swapchain_buffer_ages (swapchain_image_count : Nat) : List Int :=
  List.replicate swapchain_image_count (-1)

/-- The loop at the end of vk_present: for every index `i` other than the
presented index, an age that is not -1 is incremented. The counter `k` is
the index of the head of the remaining list. -/
def bumpOtherAges (idx : Nat) : Nat → List Int → List Int
  | _, [] => []
  | k, a :: rest =>
      (if k ≠ idx ∧ a ≠ -1 then a + 1 else a) :: bumpOtherAges idx (k + 1) rest

/-- The buffer-age update of vk_present: the presented index is first set
to 1, then the loop increments every other previously-presented age. -/
def vk_present_update_ages (idx : Nat) (ages : List Int) : List Int :=
  bumpOtherAges idx 0 (ages.set idx 1)

/-- The `flags` field of a VkFenceCreateInfo, reduced to the one flag the
source uses (VK_FENCE_CREATE_SIGNALED_BIT). -/
structure VkFenceCreateInfo where
  signaled : Bool
deriving DecidableEq

/-- acquire_next_image_fence_create_info: flags = 0. -/
def acquire_next_image_fence_create_info : VkFenceCreateInfo := ⟨false⟩

/-- queue_submit_fence_create_info: flags = VK_FENCE_CREATE_SIGNALED_BIT. -/
def queue_submit_fence_create_info : VkFenceCreateInfo := ⟨true⟩

/-- vk_prepare: wait on and reset the queue-submit fence, reset and begin
the command buffer, then record a barrier taking the current swapchain
image from its previous layout to color-attachment-optimal. The returned
list is the sequence of host-side calls, in program order. -/
def vk_prepare (vd : VulkanData) : VulkanData × List HostAction :=
  let idx := vd.swapchain_image_index
  let oldLayout := vd.swapchain_image_layouts.getD idx .undefined
  ({ vd with
      command_buffer := [.imageBarrier oldLayout .colorAttachment],
      swapchain_image_layouts := vd.swapchain_image_layouts.set idx .colorAttachment },
   [.waitFences .queueSubmit, .resetFences .queueSubmit,
    .resetCommandBuffer, .beginCommandBuffer])

/-- pixman_region32_extents: the bounding rectangle of the rectangles of
a region (pixman maintains it as the bounding box of all rectangles). -/
def regionExtents : List Box → Box
  | [] => ⟨0, 0, 0, 0⟩
  | r :: rs =>
      rs.foldl
        (fun acc b => ⟨min acc.x1 b.x1, min acc.y1 b.y1, max acc.x2 b.x2, max acc.y2 b.y2⟩)
        r

/-- The C cast (int16_t)n applied to an int expression. -/
def toInt16 (n : Int) : Int := (n + 2 ^ 15) % 2 ^ 16 - 2 ^ 15

/-- The C cast (uint16_t)n applied to an int expression. -/
def toUInt16 (n : Int) : Nat := (n % 2 ^ 16).toNat

/-- The xcb_shm_get_image request vk_compose issues on the shared-memory
path: a synchronous readback of the bounding rectangle of the paint
region, translated by the image offset. -/
structure XShmGetImageRequest where
  x : Int
  y : Int
  width : Nat
  height : Nat
deriving DecidableEq

/-- The per-rectangle push constant of vk_compose and vk_fill: offset 8,
size 16, the four coordinates of the rectangle. -/
def rectPush (r : Box) : VkCmd := .pushConstants .vertex 8 16 (.rect r)

/-- The commands vk_compose records before its per-rectangle loop: the
shared-memory strategy first wraps a buffer-to-image copy of the region
bounding rectangle in two barriers, then the dynamic render pass begins,
the compose pipeline is bound, the scissor is set to the region extents,
the descriptor set is bound, and the output size and the image offset are
pushed once. -/
def vk_compose_setup_cmds (strategy : BindPixmapStrategy) (out_width out_height : Nat)
    (image_x image_y : Int) (rects : List Box) : List VkCmd :=
  let ext := regionExtents rects
  (match strategy with
   | .shm =>
       [.imageBarrier .shaderRead .transferDst,
        .copyBufferToImage (toInt16 (ext.x1 - image_x)) (toInt16 (ext.y1 - image_y))
          (toUInt16 (ext.x2 - ext.x1)) (toUInt16 (ext.y2 - ext.y1)),
        .imageBarrier .transferDst .shaderRead]
   | .dri3 => []) ++
  [.beginRendering ext, .bindPipeline .compose, .setScissor ext, .bindDescriptorSets,
   .pushConstants .vertex 0 8 (.outputSize out_width out_height),
   .pushConstants .vertex 24 8 (.imageOffset image_x image_y)]

/-- The commands vk_compose records for a paint region
(rects = pixman_region32_rectangles(reg_paint)): nothing when the region
is empty; otherwise the setup commands followed, for each rectangle, by a
push of its bounds and one 4-vertex triangle-strip draw, and finally the
end of the render pass. -/
def vk_compose_cmds (strategy : BindPixmapStrategy) (out_width out_height : Nat)
    (image_x image_y : Int) (rects : List Box) : List VkCmd :=
  if rects.length < 1 then []
  else
    vk_compose_setup_cmds strategy out_width out_height image_x image_y rects ++
    (rects.flatMap fun r => [rectPush r, .draw 4 1 0 0]) ++
    [.endRendering]

/-- vk_compose: returns early when the paint region has no rectangles;
otherwise issues the shared-memory readback request (SHM strategy only)
and appends the compose commands to the command buffer. No other backend
state is touched. -/
def vk_compose (vd : VulkanData) (image_x image_y : Int) (reg_paint : List Box) :
    VulkanData × List XShmGetImageRequest :=
  if reg_paint.length < 1 then (vd, [])
  else
    let ext := regionExtents reg_paint
    let reqs : List XShmGetImageRequest :=
      match vd.bind_pixmap_strategy with
      | .shm =>
          [⟨toInt16 (ext.x1 - image_x), toInt16 (ext.y1 - image_y),
            toUInt16 (ext.x2 - ext.x1), toUInt16 (ext.y2 - ext.y1)⟩]
      | .dri3 => []
    ({ vd with
        command_buffer := vd.command_buffer ++
          vk_compose_cmds vd.bind_pixmap_strategy vd.width vd.height image_x image_y
            reg_paint },
     reqs)

/-- The commands vk_fill records before its per-rectangle loop: the
dynamic render pass begins over the region extents, the fill pipeline is
bound, the scissor is set to the region extents, and the output size and
the RGBA color are pushed once. -/
def vk_fill_setup_cmds (out_width out_height : Nat) (rects : List Box) : List VkCmd :=
  let ext := regionExtents rects
  [.beginRendering ext, .bindPipeline .fill, .setScissor ext,
   .pushConstants .vertex 0 8 (.outputSize out_width out_height),
   .pushConstants .fragment 32 16 .fillColor]

/-- The commands vk_fill records for a region: nothing when the region is
empty; otherwise the setup commands followed by one rectangle push plus
one draw per rectangle and the end of the render pass. -/
def vk_fill_cmds (out_width out_height : Nat) (rects : List Box) : List VkCmd :=
  if rects.length < 1 then []
  else
    vk_fill_setup_cmds out_width out_height rects ++
    (rects.flatMap fun r => [rectPush r, .draw 4 1 0 0]) ++
    [.endRendering]

/-- vk_fill: returns early when the region has no rectangles; otherwise
appends the fill commands to the command buffer. -/
def vk_fill (vd : VulkanData) (region : List Box) : VulkanData :=
  if region.length < 1 then vd
  else
    { vd with
        command_buffer := vd.command_buffer ++
          vk_fill_cmds vd.width vd.height region }

/-- vk_present: record the color-attachment-to-present barrier, end and
submit the command buffer (fenced by the queue-submit fence), present,
update the buffer ages, then acquire the next image (`next_image_index`
is the index returned by vkAcquireNextImageKHR) and wait on and reset the
acquire fence. -/
def vk_present (vd : VulkanData) (next_image_index : Nat) :
    VulkanData × List HostAction :=
  let idx := vd.swapchain_image_index
  ({ vd with
      command_buffer := vd.command_buffer ++ [.imageBarrier .colorAttachment .presentSrc],
      swapchain_image_layouts := vd.swapchain_image_layouts.set idx .presentSrc,
      buffer_ages := vk_present_update_ages idx vd.buffer_ages,
      swapchain_image_index := next_image_index },
   [.endCommandBuffer, .queueSubmit .queueSubmit, .queuePresent,
    .acquireNextImage, .waitFences .acquireNextImage, .resetFences .acquireNextImage])

/-- Recognizer for vkCmdDraw. -/
def isDraw : VkCmd → Bool
  | .draw _ _ _ _ => true
  | _ => false

/-- Recognizer for vkCmdSetScissor. -/
def isSetScissor : VkCmd → Bool
  | .setScissor _ => true
  | _ => false

/-- Number of draw commands in a command list. -/
def drawCount (cmds : List VkCmd) : Nat := (cmds.filter isDraw).length

/-- Number of scissor updates in a command list. -/
def scissorCount (cmds : List VkCmd) : Nat := (cmds.filter isSetScissor).length

/-- Indices of the draw commands of a command list, in order. -/
def drawPositions (cmds : List VkCmd) : List Nat := cmds.findIdxs isDraw

/-- The per-draw property asserted by the draw-count law as the spec
states it: as many draws as rectangles, and for the i-th draw both a
scissor update carrying the i-th rectangle and a push-constant update
carrying the i-th rectangle occur somewhere earlier in the recording. -/
def scissor_and_push_scoped (cmds : List VkCmd) (rects : List Box) : Prop :=
  (drawPositions cmds).length = rects.length ∧
  ∀ p ∈ (drawPositions cmds).zip rects,
    VkCmd.setScissor p.2 ∈ cmds.take p.1 ∧ rectPush p.2 ∈ cmds.take p.1

instance (cmds : List VkCmd) (rects : List Box) :
    Decidable (scissor_and_push_scoped cmds rects) := by
  unfold scissor_and_push_scoped
  infer_instance

/-- Concrete state for the buffer-age witness: three swapchain images
with ages [-1, 3, 5], the image at index 2 about to be presented. -/
def ageWitnessData : VulkanData :=
  { bind_pixmap_strategy := .dri3
    width := 800
    height := 600
    swapchain_image_count := 3
    swapchain_image_layouts := [.presentSrc, .presentSrc, .colorAttachment]
    buffer_ages := [-1, 3, 5]
    swapchain_image_index := 2
    command_buffer := [] }

/-- The device extension names the source requests, as opaque identifiers
(the C code compares them with strcmp against the enumerated extension
properties). -/
inductive ExtName
  | khr_swapchain
  | ext_external_memory_dma_buf
  | ext_image_drm_format_modifier
  | khr_external_memory_fd
  | ext_external_memory_host
deriving DecidableEq

/-- VK_API_VERSION_1_3 = (1 << 22) | (3 << 12). -/
def VK_API_VERSION_1_3 : Nat := 1 <<< 22 ||| 3 <<< 12

/-- VK_API_VERSION_1_2 = (1 << 22) | (2 << 12). -/
def VK_API_VERSION_1_2 : Nat := 1 <<< 22 ||| 2 <<< 12

/-- A physical device as vk_select_physical_device observes it: its
reported apiVersion and the set of device extensions it advertises. -/
structure PhysicalDevice where
  apiVersion : Nat
  extensions : List ExtName
deriving DecidableEq

/-- vk_has_extension: linear scan over the enumerated extension
properties for one requested name. -/
def vk_has_extension (properties : List ExtName) (extension : ExtName) : Bool :=
  properties.contains extension

/-- The per-device test of vk_select_physical_device: the device is
skipped when its apiVersion is below 1.3, and selected only when it
advertises every enabled extension. -/
def vk_device_suitable (enabled_extension_names : List ExtName)
    (d : PhysicalDevice) : Bool :=
  decide (VK_API_VERSION_1_3 ≤ d.apiVersion) &&
    enabled_extension_names.all (vk_has_extension d.extensions)

/-- vk_select_physical_device: the first enumerated device passing the
apiVersion and extension checks. -/
def vk_select_physical_device (physical_devices : List PhysicalDevice)
    (enabled_extension_names : List ExtName) : Option PhysicalDevice :=
  physical_devices.find? (vk_device_suitable enabled_extension_names)

/-- The X capabilities vk_create_device consults (session->dri3_exists,
session->shm_exists). -/
structure SessionCaps where
  dri3_exists : Bool
  shm_exists : Bool
deriving DecidableEq

/-- common_extension_names. -/
def common_extension_names : List ExtName := [.khr_swapchain]

/-- dri3_extension_names. -/
def dri3_extension_names : List ExtName :=
  [.ext_external_memory_dma_buf, .ext_image_drm_format_modifier, .khr_external_memory_fd]

/-- shm_extension_names. -/
def shm_extension_names : List ExtName := [.ext_external_memory_host]

/-- The strategy and device selection of vk_create_device: when DRI3 is
advertised, the strategy is set to DRI3 and a device supporting the
common plus DRI3 extension set is searched for; when that leaves no
device and SHM is advertised, the strategy is set to SHM and the search
is repeated with the SHM extension set; when no device was selected the
function fails. -/
def vk_create_device_selection (session : SessionCaps)
    (physical_devices : List PhysicalDevice) :
    Option (BindPixmapStrategy × PhysicalDevice) :=
  let dri3Pick :=
    if session.dri3_exists then
      vk_select_physical_device physical_devices
        (common_extension_names ++ dri3_extension_names)
    else none
  match dri3Pick with
  | some d => some (.dri3, d)
  | none =>
      if session.shm_exists then
        (vk_select_physical_device physical_devices
            (common_extension_names ++ shm_extension_names)).map
          fun d => (.shm, d)
      else none

/-- The fields of the xcb_dri3_buffers_from_pixmap reply that
vk_bind_pixmap_dri3 reads before and at the plane-count check. -/
structure Dri3BuffersReply where
  width : Nat
  height : Nat
  nfd : Nat
deriving DecidableEq

/-- Outcome of vk_bind_pixmap_dri3. `bindError` is the `return false`
path: the caller (vk_bind_pixmap) then releases all partial allocations
and returns no handle. `assertionViolation` is the `assert(r->nfd == 1)`
statement observing a plane count different from one: the process aborts
in a debug build, and in a release build execution continues past the
assert with the unexpected plane count. -/
inductive Dri3BindOutcome
  | bindError
  | assertionViolation
  | bound
deriving DecidableEq

/-- Success or failure of the device calls vk_bind_pixmap_dri3 makes
after the plane-count check (image creation, memory-fd property query,
memory-type search, allocation, binding). -/
structure Dri3BindEnv where
  create_image_ok : Bool
  memory_fd_properties_ok : Bool
  memory_type_found : Bool
  allocate_ok : Bool
  bind_ok : Bool
deriving DecidableEq

/-- vk_bind_pixmap_dri3: a missing reply returns false; the plane count
is then checked only by assert(r->nfd == 1); every later failing device
call returns false. -/
def vk_bind_pixmap_dri3 (env : Dri3BindEnv) (reply : Option Dri3BuffersReply) :
    Dri3BindOutcome :=
  match reply with
  | none => .bindError
  | some r =>
      if r.nfd = 1 then
        if env.create_image_ok then
          if env.memory_fd_properties_ok then
            if env.memory_type_found then
              if env.allocate_ok then
                if env.bind_ok then .bound else .bindError
              else .bindError
            else .bindError
          else .bindError
        else .bindError
      else .assertionViolation

/-- The fields of `struct vulkan_image` consulted by the teardown
routines. Vulkan handles and the X segment are numbers whose empty
sentinel (VK_NULL_HANDLE, XCB_NONE) is 0; the shm address is a pointer
whose checked sentinel is (void *)-1 while NULL is 0; the shm id is an
int whose checked sentinel is -1. `ccalloc` zero-initializes every
field. -/
structure VulkanImage where
  refcount : Int
  has_alpha : Bool
  pixmap : Nat
  owned : Bool
  width : Nat
  height : Nat
  image : Nat
  memory : Nat
  shm_id : Int
  shm_address : Int
  shm_segment : Nat
  staging_buffer : Nat
  staging_memory : Nat
  image_view : Nat
  descriptor_set : Nat
deriving DecidableEq

/-- The resource-releasing calls teardown can make, with the handle or
identifier they are applied to. -/
inductive ReleaseAction
  | destroyBuffer (h : Nat)
  | freeStagingMemory (h : Nat)
  | shmDetachX (seg : Nat)
  | shmdt (addr : Int)
  | shmRemove (id : Int)
  | freeDescriptorSet (h : Nat)
  | destroyImageView (h : Nat)
  | destroyImage (h : Nat)
  | freeMemory (h : Nat)
  | freePixmapX (p : Nat)
deriving DecidableEq

/-- vk_release_image_shm: each shared-memory resource is released only
after a comparison against its sentinel (VK_NULL_HANDLE for the buffer
and memory, XCB_NONE for the X segment, (void *)-1 for the address, -1
for the shm id). -/
def vk_release_image_shm (vi : VulkanImage) : List ReleaseAction :=
  (if vi.staging_buffer ≠ 0 then [.destroyBuffer vi.staging_buffer] else []) ++
  (if vi.staging_memory ≠ 0 then [.freeStagingMemory vi.staging_memory] else []) ++
  (if vi.shm_segment ≠ 0 then [.shmDetachX vi.shm_segment] else []) ++
  (if vi.shm_address ≠ -1 then [.shmdt vi.shm_address] else []) ++
  (if vi.shm_id ≠ -1 then [.shmRemove vi.shm_id] else [])

/-- The release phase of vk_release_image once the refcount reached
zero: descriptor set, image view, strategy-specific shared-memory
resources, image, memory, and the owned pixmap, each guarded by a
sentinel comparison. -/
def vk_release_image_actions (strategy : BindPixmapStrategy) (vi : VulkanImage) :
    List ReleaseAction :=
  (if vi.descriptor_set ≠ 0 then [.freeDescriptorSet vi.descriptor_set] else []) ++
  (if vi.image_view ≠ 0 then [.destroyImageView vi.image_view] else []) ++
  (if strategy = .shm then vk_release_image_shm vi else []) ++
  (if vi.image ≠ 0 then [.destroyImage vi.image] else []) ++
  (if vi.memory ≠ 0 then [.freeMemory vi.memory] else []) ++
  (if vi.owned ∧ vi.pixmap ≠ 0 then [.freePixmapX vi.pixmap] else [])

/-- The vulkan_image produced by vk_bind_pixmap for pixmap 7 (not owned)
when the very first step of the SHM path, the geometry query, fails: only
the ccalloc zero-initialization and the refcount/pixmap/owned assignments
have happened; no shared-memory resource was ever acquired. -/
def shm_bind_failed_image : VulkanImage :=
  { refcount := 1
    has_alpha := false
    pixmap := 7
    owned := false
    width := 0
    height := 0
    image := 0
    memory := 0
    shm_id := 0
    shm_address := 0
    shm_segment := 0
    staging_buffer := 0
    staging_memory := 0
    image_view := 0
    descriptor_set := 0 }

/-- 2^64, the modulus of size_t arithmetic. -/
def usizeMod : Nat := 2 ^ 64

/-- The segment size computed by vk_bind_pixmap_shm:
size = width * height * 4 in size_t, then
size = (size - 1) + alignment - (size - 1) % alignment, every operation
performed modulo 2^64. -/
def vk_bind_pixmap_shm_segment_size (width height alignment : Nat) : Nat :=
  let size0 := (width * height * 4) % usizeMod
  let sm1 := (size0 + (usizeMod - 1)) % usizeMod
  let t := (sm1 + alignment) % usizeMod
  (t + (usizeMod - sm1 % alignment)) % usizeMod

/-- The VkComponentSwizzle values the source uses. -/
inductive ComponentSwizzle
  | r
  | g
  | b
  | a
  | one
deriving DecidableEq

/-- The `components` field of a VkImageViewCreateInfo. -/
structure VkComponentMapping where
  r : ComponentSwizzle
  g : ComponentSwizzle
  b : ComponentSwizzle
  a : ComponentSwizzle
deriving DecidableEq

/-- vi->has_alpha = visual_info.alpha_size > 0. -/
def vk_image_has_alpha (alpha_size : Nat) : Bool := decide (0 < alpha_size)

/-- The component mapping of the sampled view created by vk_bind_pixmap:
r := B, g := G, b := R, and a := has_alpha ? A : ONE. -/
def vk_bind_pixmap_view_components (alpha_size : Nat) : VkComponentMapping :=
  { r := .b
    g := .g
    b := .r
    a := if vk_image_has_alpha alpha_size then .a else .one }

/-- maxSets of the descriptor pool created by vk_create_descriptor_pool. -/
def vk_descriptor_pool_max_sets : Nat := 32

/-- The image-lifetime operations that touch the descriptor pool: each
successful vk_bind_pixmap allocates exactly one descriptor set, each
final vk_release_image frees exactly one. -/
inductive ImageOp
  | bindPixmap
  | releaseImage
deriving DecidableEq

/-- vkAllocateDescriptorSets on the pool: with maxSets = 32, an
allocation from a pool already holding 32 live sets fails (and
vk_bind_pixmap then releases its partial allocations and returns no
handle). -/
def vk_allocate_descriptor_set (allocated : Nat) : Option Nat :=
  if allocated < vk_descriptor_pool_max_sets then some (allocated + 1) else none

/-- Effect of one image operation on the number of live descriptor sets:
a bind that fails its allocation leaves the count unchanged (the caller
gets no handle), a final release frees one set. -/
def descriptor_sets_step (allocated : Nat) : ImageOp → Nat
  | .bindPixmap =>
      match vk_allocate_descriptor_set allocated with
      | some allocated2 => allocated2
      | none => allocated
  | .releaseImage => allocated - 1

/-! ## Helper lemmas -/

theorem length_bumpOtherAges (idx : Nat) :
    ∀ (k : Nat) (l : List Int), (bumpOtherAges idx k l).length = l.length := by
  intro k l
  induction l generalizing k with
  | nil => rfl
  | cons a rest ih => simp [bumpOtherAges, ih]

theorem getElem?_bumpOtherAges (idx : Nat) :
    ∀ (k i : Nat) (l : List Int),
      (bumpOtherAges idx k l)[i]? =
        l[i]?.map (fun a => if k + i ≠ idx ∧ a ≠ -1 then a + 1 else a) := by
  intro k i l
  induction l generalizing k i with
  | nil => simp [bumpOtherAges]
  | cons a rest ih =>
      cases i with
      | zero => simp [bumpOtherAges]
      | succ j =>
          simp only [bumpOtherAges, List.getElem?_cons_succ, ih (k + 1) j]
          have : k + 1 + j = k + (j + 1) := by omega
          rw [this]

theorem length_vk_present_update_ages (idx : Nat) (ages : List Int) :
    (vk_present_update_ages idx ages).length = ages.length := by
  unfold vk_present_update_ages
  rw [length_bumpOtherAges, List.length_set]

theorem vk_present_update_ages_presented (idx : Nat) (ages : List Int)
    (h : idx < ages.length) :
    (vk_present_update_ages idx ages)[idx]? = some 1 := by
  unfold vk_present_update_ages
  rw [getElem?_bumpOtherAges]
  rw [List.getElem?_set_self (by omega)]
  simp

theorem vk_present_update_ages_other (idx i : Nat) (ages : List Int)
    (hne : i ≠ idx) (hi : i < ages.length) :
    (vk_present_update_ages idx ages)[i]? =
      some (if ages[i]! ≠ -1 then ages[i]! + 1 else ages[i]!) := by
  unfold vk_present_update_ages
  rw [getElem?_bumpOtherAges]
  rw [List.getElem?_set_ne (by omega)]
  rw [List.getElem?_eq_getElem hi]
  simp only [Option.map_some, Nat.zero_add]
  have hget : ages[i]! = ages[i] := by
    simp [getElem!_pos, hi]
  rw [hget]
  by_cases hv : ages[i] = -1
  · simp [hv, hne]
  · simp [hv, hne]

theorem drawCount_append (l1 l2 : List VkCmd) :
    drawCount (l1 ++ l2) = drawCount l1 + drawCount l2 := by
  simp [drawCount, List.filter_append]

theorem scissorCount_append (l1 l2 : List VkCmd) :
    scissorCount (l1 ++ l2) = scissorCount l1 + scissorCount l2 := by
  simp [scissorCount, List.filter_append]

theorem drawCount_rect_blocks (rects : List Box) :
    drawCount (rects.flatMap fun r => [rectPush r, .draw 4 1 0 0]) = rects.length := by
  induction rects with
  | nil => rfl
  | cons r rs ih =>
      rw [List.flatMap_cons, drawCount_append, ih]
      have h1 : drawCount [rectPush r, .draw 4 1 0 0] = 1 := rfl
      rw [h1, List.length_cons]
      omega

theorem scissorCount_rect_blocks (rects : List Box) :
    scissorCount (rects.flatMap fun r => [rectPush r, .draw 4 1 0 0]) = 0 := by
  induction rects with
  | nil => rfl
  | cons r rs ih =>
      rw [List.flatMap_cons, scissorCount_append, ih]
      rfl

theorem drawCount_compose_setup (strategy : BindPixmapStrategy)
    (out_width out_height : Nat) (image_x image_y : Int) (rects : List Box) :
    drawCount (vk_compose_setup_cmds strategy out_width out_height image_x image_y rects)
      = 0 := by
  cases strategy <;> rfl

theorem scissorCount_compose_setup (strategy : BindPixmapStrategy)
    (out_width out_height : Nat) (image_x image_y : Int) (rects : List Box) :
    scissorCount (vk_compose_setup_cmds strategy out_width out_height image_x image_y rects)
      = 1 := by
  cases strategy <;> rfl

theorem setScissor_mem_compose_setup (strategy : BindPixmapStrategy)
    (out_width out_height : Nat) (image_x image_y : Int) (rects : List Box) :
    VkCmd.setScissor (regionExtents rects) ∈
      vk_compose_setup_cmds strategy out_width out_height image_x image_y rects := by
  cases strategy <;> simp [vk_compose_setup_cmds]

theorem find?_eq_none_iff {α : Type} (p : α → Bool) (l : List α) :
    l.find? p = none ↔ ∀ x ∈ l, p x = false := by
  induction l with
  | nil => simp
  | cons a t ih =>
      cases hpa : p a with
      | true => simp [List.find?_cons, hpa]
      | false => simp [List.find?_cons, hpa, ih]

theorem find?_isSome_of_mem {α : Type} {p : α → Bool} {l : List α} {x : α}
    (hm : x ∈ l) (hp : p x = true) : ∃ y, l.find? p = some y := by
  induction l with
  | nil => cases hm
  | cons a t ih =>
      cases hpa : p a with
      | true => exact ⟨a, by simp [List.find?_cons, hpa]⟩
      | false =>
          rcases List.mem_cons.mp hm with rfl | hmt
          · rw [hpa] at hp
            cases hp
          · rcases ih hmt with ⟨y, hy⟩
            exact ⟨y, by simp [List.find?_cons, hpa, hy]⟩

/-! ## Claim theorems -/

/-- Claim C1: after every call to vk_present, the just-presented
swapchain image has buffer age 1, every other image whose age was not -1
before the call has its age incremented by exactly 1, and every image
whose age was -1 (never presented) keeps age -1. -/
theorem vk_present_buffer_age_invariant (vd : VulkanData) (next_image_index : Nat)
    (h : vd.swapchain_image_index < vd.buffer_ages.length) :
    ((vk_present vd next_image_index).1.buffer_ages.length = vd.buffer_ages.length) ∧
    ((vk_present vd next_image_index).1.buffer_ages[vd.swapchain_image_index]? = some 1) ∧
    (∀ i, i < vd.buffer_ages.length → i ≠ vd.swapchain_image_index →
      (vd.buffer_ages[i]! ≠ -1 →
        (vk_present vd next_image_index).1.buffer_ages[i]? =
          some (vd.buffer_ages[i]! + 1)) ∧
      (vd.buffer_ages[i]! = -1 →
        (vk_present vd next_image_index).1.buffer_ages[i]? = some (-1))) := by
  have hages : (vk_present vd next_image_index).1.buffer_ages =
      vk_present_update_ages vd.swapchain_image_index vd.buffer_ages := rfl
  refine ⟨?_, ?_, ?_⟩
  · rw [hages, length_vk_present_update_ages]
  · rw [hages, vk_present_update_ages_presented _ _ h]
  · intro i hi hne
    constructor
    · intro hv
      rw [hages, vk_present_update_ages_other _ _ _ hne hi, if_pos hv]
    · intro hv
      rw [hages, vk_present_update_ages_other _ _ _ hne hi, if_neg (by simp [hv]), hv]

theorem vk_present_buffer_age_invariant_witness :
    (vk_present ageWitnessData 0).1.buffer_ages[2]? = some 1 ∧
    (vk_present ageWitnessData 0).1.buffer_ages[1]? =
      some (ageWitnessData.buffer_ages[1]! + 1) ∧
    (vk_present ageWitnessData 0).1.buffer_ages[0]? = some (-1) :=
  ⟨(vk_present_buffer_age_invariant ageWitnessData 0 (by decide)).2.1,
   ((vk_present_buffer_age_invariant ageWitnessData 0 (by decide)).2.2 1 (by decide)
      (by decide)).1 (by decide),
   ((vk_present_buffer_age_invariant ageWitnessData 0 (by decide)).2.2 0 (by decide)
      (by decide)).2 (by decide)⟩

/-- Claim C5: the queue-submit fence is created pre-signaled
(VK_FENCE_CREATE_SIGNALED_BIT), and every call to vk_prepare first waits
on that fence and resets it, and only then resets and begins re-recording
the shared command buffer — so the command buffer is never re-recorded
before the fence of the prior submission has signaled. -/
theorem vk_prepare_fence_discipline :
    queue_submit_fence_create_info.signaled = true ∧
    ∀ vd : VulkanData,
      (vk_prepare vd).2 =
        [.waitFences .queueSubmit, .resetFences .queueSubmit,
         .resetCommandBuffer, .beginCommandBuffer] :=
  ⟨rfl, fun _ => rfl⟩

/-- Claim C6: vk_compose and vk_fill called with a paint region of zero
rectangles record no commands, issue no shared-memory readback request,
and leave the backend state unchanged; neither call is an error. -/
theorem vk_compose_fill_empty_region_noop (vd : VulkanData) (image_x image_y : Int) :
    vk_compose vd image_x image_y [] = (vd, []) ∧ vk_fill vd [] = vd :=
  ⟨rfl, rfl⟩

/-- Claim C2, counterexample: for the two-rectangle region
{(0,0,1,1), (2,2,3,3)} the compose recording contains a single scissor
update, set to the bounding rectangle (0,0,3,3), so no draw is preceded
by a scissor update carrying its own rectangle. -/
theorem vk_compose_per_draw_scissor_counterexample :
    ¬ scissor_and_push_scoped
        (vk_compose_cmds .dri3 800 600 0 0 [⟨0, 0, 1, 1⟩, ⟨2, 2, 3, 3⟩])
        [⟨0, 0, 1, 1⟩, ⟨2, 2, 3, 3⟩] := by
  decide

/-- Claim C2 as amended: a paint region of K >= 1 rectangles yields
exactly K draws in both vk_compose and vk_fill, each draw immediately
preceded by a push-constant update carrying that rectangle; the scissor
is updated exactly once per call — before the first draw, to the bounding
rectangle of the whole region — not once per rectangle. -/
theorem vk_compose_fill_draw_count (strategy : BindPixmapStrategy)
    (out_width out_height : Nat) (image_x image_y : Int) (rects : List Box)
    (hne : rects ≠ []) :
    (drawCount (vk_compose_cmds strategy out_width out_height image_x image_y rects)
       = rects.length ∧
     scissorCount (vk_compose_cmds strategy out_width out_height image_x image_y rects)
       = 1 ∧
     ∃ setup,
       vk_compose_cmds strategy out_width out_height image_x image_y rects =
         setup ++ (rects.flatMap fun r => [rectPush r, .draw 4 1 0 0]) ++
           [.endRendering] ∧
       VkCmd.setScissor (regionExtents rects) ∈ setup ∧ drawCount setup = 0) ∧
    (drawCount (vk_fill_cmds out_width out_height rects) = rects.length ∧
     scissorCount (vk_fill_cmds out_width out_height rects) = 1 ∧
     ∃ setup,
       vk_fill_cmds out_width out_height rects =
         setup ++ (rects.flatMap fun r => [rectPush r, .draw 4 1 0 0]) ++
           [.endRendering] ∧
       VkCmd.setScissor (regionExtents rects) ∈ setup ∧ drawCount setup = 0) := by
  have hlt : ¬ rects.length < 1 := by
    cases rects with
    | nil => exact absurd rfl hne
    | cons r rs => simp
  have hco : vk_compose_cmds strategy out_width out_height image_x image_y rects =
      vk_compose_setup_cmds strategy out_width out_height image_x image_y rects ++
        (rects.flatMap fun r => [rectPush r, .draw 4 1 0 0]) ++ [.endRendering] := by
    simp only [vk_compose_cmds, if_neg hlt]
  have hfi : vk_fill_cmds out_width out_height rects =
      vk_fill_setup_cmds out_width out_height rects ++
        (rects.flatMap fun r => [rectPush r, .draw 4 1 0 0]) ++ [.endRendering] := by
    simp only [vk_fill_cmds, if_neg hlt]
  refine ⟨⟨?_, ?_, ?_⟩, ?_, ?_, ?_⟩
  · rw [hco, drawCount_append, drawCount_append, drawCount_compose_setup,
      drawCount_rect_blocks]
    have h2 : drawCount [VkCmd.endRendering] = 0 := rfl
    rw [h2]
    omega
  · rw [hco, scissorCount_append, scissorCount_append, scissorCount_compose_setup,
      scissorCount_rect_blocks]
    rfl
  · exact ⟨vk_compose_setup_cmds strategy out_width out_height image_x image_y rects,
      hco, setScissor_mem_compose_setup strategy out_width out_height image_x image_y
        rects,
      drawCount_compose_setup strategy out_width out_height image_x image_y rects⟩
  · rw [hfi, drawCount_append, drawCount_append, drawCount_rect_blocks]
    have h1 : drawCount (vk_fill_setup_cmds out_width out_height rects) = 0 := rfl
    have h2 : drawCount [VkCmd.endRendering] = 0 := rfl
    rw [h1, h2]
    omega
  · rw [hfi, scissorCount_append, scissorCount_append, scissorCount_rect_blocks]
    rfl
  · refine ⟨vk_fill_setup_cmds out_width out_height rects, hfi, ?_, rfl⟩
    simp [vk_fill_setup_cmds]

theorem vk_compose_fill_draw_count_witness :
    drawCount (vk_compose_cmds .shm 8 8 0 0 [⟨0, 0, 4, 4⟩]) = 1 ∧
    drawCount (vk_fill_cmds 8 8 [⟨0, 0, 4, 4⟩]) = 1 :=
  ⟨(vk_compose_fill_draw_count .shm 8 8 0 0 [⟨0, 0, 4, 4⟩] (by decide)).1.1,
   (vk_compose_fill_draw_count .shm 8 8 0 0 [⟨0, 0, 4, 4⟩] (by decide)).2.1⟩

/-- Claim C3, counterexample: DRI3 and SHM are both advertised and the
single enumerated device supports the swap-chain plus zero-copy extension
set, yet — because its apiVersion is 1.2 — neither strategy is selected
and device creation fails, where the claim as stated requires the
zero-copy strategy to be chosen. -/
theorem vk_create_device_api_version_counterexample :
    (SessionCaps.mk true true).dri3_exists = true ∧
    (common_extension_names ++ dri3_extension_names).all
      (vk_has_extension (PhysicalDevice.mk VK_API_VERSION_1_2
        (common_extension_names ++ dri3_extension_names)).extensions) = true ∧
    vk_create_device_selection (SessionCaps.mk true true)
      [PhysicalDevice.mk VK_API_VERSION_1_2
        (common_extension_names ++ dri3_extension_names)] = none := by
  refine ⟨rfl, by decide, by decide⟩

/-- Claim C3 as amended: the zero-copy strategy is selected whenever DRI3
is advertised and some enumerated device with apiVersion at least 1.3
supports the swap-chain plus zero-copy extension set; when the DRI3 path
yields no device, the shared-memory strategy is selected whenever SHM is
advertised and some such device supports the swap-chain plus
shared-memory extension set; and selection fails exactly when neither
advertised path has a suitable device. -/
theorem vk_create_device_strategy_priority (session : SessionCaps)
    (physical_devices : List PhysicalDevice) :
    (session.dri3_exists = true →
      (∃ d ∈ physical_devices,
        vk_device_suitable (common_extension_names ++ dri3_extension_names) d = true) →
      ∃ d, vk_create_device_selection session physical_devices = some (.dri3, d)) ∧
    ((session.dri3_exists = true →
        vk_select_physical_device physical_devices
          (common_extension_names ++ dri3_extension_names) = none) →
      session.shm_exists = true →
      (∃ d ∈ physical_devices,
        vk_device_suitable (common_extension_names ++ shm_extension_names) d = true) →
      ∃ d, vk_create_device_selection session physical_devices = some (.shm, d)) ∧
    (vk_create_device_selection session physical_devices = none ↔
      ((session.dri3_exists = false ∨
          vk_select_physical_device physical_devices
            (common_extension_names ++ dri3_extension_names) = none) ∧
       (session.shm_exists = false ∨
          vk_select_physical_device physical_devices
            (common_extension_names ++ shm_extension_names) = none))) ∧
    (∀ enabled_extension_names,
      vk_select_physical_device physical_devices enabled_extension_names = none ↔
        ∀ d ∈ physical_devices,
          vk_device_suitable enabled_extension_names d = false) := by
  refine ⟨?_, ?_, ?_, ?_⟩
  · intro hdri3 hex
    rcases hex with ⟨d, hmem, hsuit⟩
    rcases find?_isSome_of_mem hmem hsuit with ⟨y, hy⟩
    refine ⟨y, ?_⟩
    simp [vk_create_device_selection, hdri3, vk_select_physical_device, hy]
  · intro hnone hshm hex
    rcases hex with ⟨d, hmem, hsuit⟩
    rcases find?_isSome_of_mem hmem hsuit with ⟨y, hy⟩
    refine ⟨y, ?_⟩
    cases hd : session.dri3_exists with
    | true =>
        have h0 := hnone hd
        rw [vk_select_physical_device] at h0
        simp [vk_create_device_selection, hd, h0, hshm, vk_select_physical_device, hy]
    | false =>
        simp [vk_create_device_selection, hd, hshm, vk_select_physical_device, hy]
  · cases hd : session.dri3_exists with
    | true =>
        cases hfd : physical_devices.find?
            (vk_device_suitable (common_extension_names ++ dri3_extension_names)) with
        | some d =>
            simp [vk_create_device_selection, hd, vk_select_physical_device, hfd]
        | none =>
            cases hs : session.shm_exists with
            | true =>
                cases hfs : physical_devices.find?
                    (vk_device_suitable
                      (common_extension_names ++ shm_extension_names)) with
                | some d =>
                    simp [vk_create_device_selection, hd, hs,
                      vk_select_physical_device, hfd, hfs]
                | none =>
                    simp [vk_create_device_selection, hd, hs,
                      vk_select_physical_device, hfd, hfs]
            | false =>
                simp [vk_create_device_selection, hd, hs, vk_select_physical_device,
                  hfd]
    | false =>
        cases hs : session.shm_exists with
        | true =>
            cases hfs : physical_devices.find?
                (vk_device_suitable (common_extension_names ++ shm_extension_names)) with
            | some d =>
                simp [vk_create_device_selection, hd, hs, vk_select_physical_device,
                  hfs]
            | none =>
                simp [vk_create_device_selection, hd, hs, vk_select_physical_device,
                  hfs]
        | false =>
            simp [vk_create_device_selection, hd, hs]
  · intro enabled_extension_names
    rw [vk_select_physical_device]
    exact find?_eq_none_iff _ _

theorem vk_create_device_strategy_priority_witness :
    ∃ d, vk_create_device_selection (SessionCaps.mk true true)
      [PhysicalDevice.mk VK_API_VERSION_1_3
        (common_extension_names ++ dri3_extension_names)] =
      some (.dri3, d) :=
  (vk_create_device_strategy_priority (SessionCaps.mk true true)
      [PhysicalDevice.mk VK_API_VERSION_1_3
        (common_extension_names ++ dri3_extension_names)]).1 rfl
    ⟨PhysicalDevice.mk VK_API_VERSION_1_3
        (common_extension_names ++ dri3_extension_names),
      by decide, by decide⟩

/-- Claim C4: a buffers-from-pixmap reply reporting two planes does not
take the BindError path — vk_bind_pixmap_dri3 hits the plane-count assert
instead of failing gracefully with no handle. -/
theorem vk_bind_pixmap_dri3_plane_count_assert :
    vk_bind_pixmap_dri3 ⟨true, true, true, true, true⟩ (some ⟨64, 64, 2⟩) =
      .assertionViolation ∧
    Dri3BindOutcome.assertionViolation ≠ Dri3BindOutcome.bindError :=
  ⟨rfl, by decide⟩

/-- Claim C7: releasing the partially constructed SHM image still
performs shmdt(NULL) and shmctl(0, IPC_RMID) — the zero initialization of
shm_id and shm_address does not match the -1 sentinels the teardown
checks, so resources that were never acquired are detached and removed,
where the claim requires that no release action happens at all. -/
theorem vk_release_image_shm_unacquired_free :
    vk_release_image_actions .shm shm_bind_failed_image =
      [.shmdt 0, .shmRemove 0] ∧
    vk_release_image_actions .shm shm_bind_failed_image ≠ [] := by
  refine ⟨rfl, by decide⟩

/-- Claim C8, counterexample: with width = height = 0 (so
width*height*4 = 0) and alignment 3, the size_t expression wraps:
size - 1 underflows to 2^64 - 1 and the computed size is 2, which is not
even a multiple of the alignment — the least multiple of 3 that is at
least 0 is 0. -/
theorem shm_segment_size_zero_area_counterexample :
    vk_bind_pixmap_shm_segment_size 0 0 3 = 2 ∧
    vk_bind_pixmap_shm_segment_size 0 0 3 % 3 ≠ 0 :=
  ⟨rfl, by decide⟩

/-- Claim C8 as amended: for every 16-bit width and height with
width * height ≥ 1 and every alignment in [1, 2^64), the allocated
segment size is the least multiple of the alignment that is greater than
or equal to width * height * 4. -/
theorem shm_segment_size_round_up (width height alignment : Nat)
    (hw : width < 2 ^ 16) (hh : height < 2 ^ 16) (hwh : 1 ≤ width * height)
    (ha : 1 ≤ alignment) (haM : alignment < usizeMod) :
    vk_bind_pixmap_shm_segment_size width height alignment % alignment = 0 ∧
    width * height * 4 ≤ vk_bind_pixmap_shm_segment_size width height alignment ∧
    ∀ m, m % alignment = 0 → width * height * 4 ≤ m →
      vk_bind_pixmap_shm_segment_size width height alignment ≤ m := by
  have hM : usizeMod = 18446744073709551616 := by norm_num [usizeMod]
  have hwh2 : width * height ≤ 65535 * 65535 :=
    Nat.mul_le_mul (by omega) (by omega)
  have hs1 : 1 ≤ width * height * 4 := by omega
  have hsM : width * height * 4 < 2 ^ 35 := by omega
  have hdef : vk_bind_pixmap_shm_segment_size width height alignment =
      (((width * height * 4 % usizeMod + (usizeMod - 1)) % usizeMod + alignment)
          % usizeMod +
        (usizeMod -
          (width * height * 4 % usizeMod + (usizeMod - 1)) % usizeMod % alignment))
        % usizeMod := rfl
  have hsize0 : width * height * 4 % usizeMod = width * height * 4 :=
    Nat.mod_eq_of_lt (by omega)
  have hsm1 : (width * height * 4 + (usizeMod - 1)) % usizeMod =
      width * height * 4 - 1 := by
    have h1 : width * height * 4 + (usizeMod - 1) =
        (width * height * 4 - 1) + usizeMod := by omega
    rw [h1, Nat.add_mod_right, Nat.mod_eq_of_lt (by omega)]
  have hqr : alignment * ((width * height * 4 - 1) / alignment) +
      (width * height * 4 - 1) % alignment = width * height * 4 - 1 :=
    Nat.div_add_mod (width * height * 4 - 1) alignment
  have hr : (width * height * 4 - 1) % alignment < alignment :=
    Nat.mod_lt _ (by omega)
  have hbound : alignment * ((width * height * 4 - 1) / alignment) + alignment
      < usizeMod := by
    rcases Nat.eq_zero_or_pos ((width * height * 4 - 1) / alignment) with hq | hq
    · rw [hq, Nat.mul_zero]
      omega
    · have haX : alignment * 1 ≤ alignment * ((width * height * 4 - 1) / alignment) :=
        Nat.mul_le_mul (Nat.le_refl alignment) hq
      rw [Nat.mul_one] at haX
      omega
  have hres : vk_bind_pixmap_shm_segment_size width height alignment =
      alignment * ((width * height * 4 - 1) / alignment) + alignment := by
    rw [hdef, hsize0, hsm1, Nat.mod_add_mod]
    have h2 : width * height * 4 - 1 + alignment +
        (usizeMod - (width * height * 4 - 1) % alignment) =
        (alignment * ((width * height * 4 - 1) / alignment) + alignment) +
          usizeMod := by omega
    rw [h2, Nat.add_mod_right, Nat.mod_eq_of_lt hbound]
  refine ⟨?_, ?_, ?_⟩
  · rw [hres, ← Nat.mul_succ]
    exact Nat.mul_mod_right _ _
  · rw [hres]
    omega
  · intro m hm hsm
    obtain ⟨k, hk⟩ := Nat.dvd_of_mod_eq_zero hm
    have hklt : (width * height * 4 - 1) / alignment < k := by
      rw [Nat.div_lt_iff_lt_mul (by omega : 0 < alignment)]
      have hcomm : alignment * k = k * alignment := Nat.mul_comm alignment k
      omega
    have hmul : alignment * ((width * height * 4 - 1) / alignment + 1) ≤
        alignment * k := Nat.mul_le_mul (Nat.le_refl alignment) hklt
    rw [Nat.mul_succ] at hmul
    rw [hres]
    omega

theorem shm_segment_size_round_up_witness :
    vk_bind_pixmap_shm_segment_size 64 64 4096 % 4096 = 0 ∧
    64 * 64 * 4 ≤ vk_bind_pixmap_shm_segment_size 64 64 4096 ∧
    vk_bind_pixmap_shm_segment_size 64 64 4096 ≤ 16384 := by
  obtain ⟨h1, h2, h3⟩ := shm_segment_size_round_up 64 64 4096 (by decide) (by decide)
    (by decide) (by decide) (by norm_num [usizeMod])
  exact ⟨h1, h2, h3 16384 (by decide) (by decide)⟩

/-- Claim C9: the sampled view swaps the red and blue channels, keeps
green, and forces the alpha channel to constant one exactly when the
visual reports alpha size zero. -/
theorem vk_bind_pixmap_view_swizzle (alpha_size : Nat) :
    (vk_bind_pixmap_view_components alpha_size).r = .b ∧
    (vk_bind_pixmap_view_components alpha_size).g = .g ∧
    (vk_bind_pixmap_view_components alpha_size).b = .r ∧
    ((vk_bind_pixmap_view_components alpha_size).a = .one ↔ alpha_size = 0) ∧
    ((vk_bind_pixmap_view_components alpha_size).a = .a ↔ alpha_size ≠ 0) := by
  cases alpha_size with
  | zero => exact ⟨rfl, rfl, rfl, by simp [vk_bind_pixmap_view_components,
      vk_image_has_alpha], by simp [vk_bind_pixmap_view_components, vk_image_has_alpha]⟩
  | succ n => exact ⟨rfl, rfl, rfl, by simp [vk_bind_pixmap_view_components,
      vk_image_has_alpha], by simp [vk_bind_pixmap_view_components, vk_image_has_alpha]⟩

/-- Claim C10: starting from at most 32 live descriptor sets (32 bound
images), any sequence of bind and release operations keeps the count at
most 32, and a bind issued with 32 live sets fails its descriptor-set
allocation. -/
theorem descriptor_pool_capacity_invariant (ops : List ImageOp) (allocated : Nat)
    (h : allocated ≤ vk_descriptor_pool_max_sets) :
    ops.foldl descriptor_sets_step allocated ≤ vk_descriptor_pool_max_sets ∧
    vk_allocate_descriptor_set vk_descriptor_pool_max_sets = none := by
  refine ⟨?_, rfl⟩
  induction ops generalizing allocated with
  | nil => exact h
  | cons op rest ih =>
      apply ih
      cases op with
      | bindPixmap =>
          by_cases hlt : allocated < vk_descriptor_pool_max_sets
          · simp [descriptor_sets_step, vk_allocate_descriptor_set, hlt]
            omega
          · simp [descriptor_sets_step, vk_allocate_descriptor_set, hlt]
            exact h
      | releaseImage =>
          simp [descriptor_sets_step]
          omega

theorem descriptor_pool_capacity_invariant_witness :
    [ImageOp.bindPixmap, .bindPixmap, .releaseImage].foldl descriptor_sets_step 31 ≤
      vk_descriptor_pool_max_sets ∧
    vk_allocate_descriptor_set vk_descriptor_pool_max_sets = none :=
  descriptor_pool_capacity_invariant [ImageOp.bindPixmap, .bindPixmap, .releaseImage] 31
    (by decide)

end PicomVulkan
